import Mathlib

/-!
Shallow embedding of the auth fragment of `src/main.py` (FastAPI backend:
registration, login, current-user resolution, role-gated admin listing).

The repository ships only `main.py`; the helper modules it imports
(`utils.py` with the password hasher, token issuer/verifier and guards,
`crud.py` with the store lookup, `models.py` with the `User` table, and
`schemas.py` with the public view) are absent from the source tree, so those
leaves are modelled from the specification, each marked
`Modelled from the spec:` in its doc comment.  The request handlers
themselves (`register`, `login`, `read_users_me`, `get_all_users`) are
translated directly from `main.py`.
-/

namespace App

/-- Modelled from the spec: `utils.py` (Password Hasher) is absent from
`src/`.  The spec's `hash` is salted and randomized (distinct digests for
identical input) and one-way; `verify` recomputes and compares.  The internal
randomization is made explicit as a `salt` parameter carried inside the
digest, and the one-way image is idealized as collision-free. -/
structure Digest where
  salt : Nat
  digest : String
deriving DecidableEq, Repr

/-- Modelled from the spec: `hash(plaintext) -> digest`, salted. -/
def get_password_hash (salt : Nat) (password : String) : Digest :=
  ⟨salt, toString salt ++ "$" ++ password⟩

/-- Modelled from the spec: `verify(plaintext, digest) -> bool` recomputes
the digest from the plaintext and the digest's own salt and compares. -/
def verify_password (plain : String) (d : Digest) : Bool :=
  d.digest == toString d.salt ++ "$" ++ plain

/-- Modelled from the spec: `models.py` is absent from `src/`; the Account
record holds `username`, the hashed password and a `role` string tag. -/
structure User where
  username : String
  hashed_password : Digest
  role : String
deriving DecidableEq, Repr

/-- Claims carried in a token: `main.py` issues `data = \x7b"sub": username\x7d`. -/
structure Claims where
  sub : String
deriving DecidableEq, Repr

/-- Modelled from the spec: the token `signature` authenticates `subject`,
`issued_at` and `expires_at` against a server-held secret.  Symbolic model
of an unforgeable MAC: the signature is the authenticated tuple itself. -/
structure Sig where
  secret : Nat
  subject : String
  issued_at : Nat
  expires_at : Nat
deriving DecidableEq, Repr

/-- Modelled from the spec: signing with the server secret. -/
def sign (secret : Nat) (subject : String) (issued expires : Nat) : Sig :=
  ⟨secret, subject, issued, expires⟩

/-- Modelled from the spec: a token is stateless and self-contained, with
`subject`, `issued_at`, `expires_at` and a `signature` over those fields. -/
structure Token where
  subject : String
  issued_at : Nat
  expires_at : Nat
  signature : Sig
deriving DecidableEq, Repr

/-- Token verification failures of the Token Issuer/Verifier. -/
inductive TokenError
  | TokenExpired
  | TokenInvalid
deriving DecidableEq, Repr

/-- Modelled from the spec: `utils.py` is absent; `issue(claims)` embeds the
subject plus an expiry computed as issue-time + fixed TTL and signs with the
server-wide secret (`create_access_token` in `main.py`). -/
def create_access_token (secret ttl now : Nat) (data : Claims) : Token :=
  { subject := data.sub
    issued_at := now
    expires_at := now + ttl
    signature := sign secret data.sub now (now + ttl) }

/-- Modelled from the spec: `verify(token) -> claims | error` fails with
`TokenExpired` when past expiry (a token is valid only while current time <
`expires_at`), with `TokenInvalid` when the signature is not the one the
current secret produces over the token's fields, and otherwise returns the
embedded claims. -/
def verify_token (secret now : Nat) (t : Token) : Except TokenError Claims :=
  if t.expires_at ≤ now then .error .TokenExpired
  else if t.signature == sign secret t.subject t.issued_at t.expires_at then .ok ⟨t.subject⟩
  else .error .TokenInvalid

/-- Modelled from the spec: `crud.py` is absent; the Credential Store
exposes lookup-by-username. -/
def get_user_by_username (db : List User) (username : String) : Option User :=
  db.find? (fun u => u.username == username)

/-- Storage-level failure raised by the external store on a violated
constraint (surfaced to FastAPI as an uncaught exception). -/
inductive DbError
  | IntegrityError
deriving DecidableEq, Repr

/-- Modelled from the spec: `models.py`/`database.py` are absent; `username`
uniqueness is enforced by the Credential Store at insert time and a
violating insert fails (the transactional commit raises). -/
def insert_user (db : List User) (u : User) : Except DbError (List User) :=
  if db.any (fun x => x.username == u.username) then .error .IntegrityError
  else .ok (db ++ [u])

/-- Number of stored accounts carrying a given username. -/
def countUsername (db : List User) (username : String) : Nat :=
  (db.filter (fun u => u.username == username)).length

/-- Core of the `register` handler (`main.py` lines 62-71): hash the
password, build a `User` with `role="user"`, add and commit.  On success the
handler returns the refreshed ORM object itself.  There is no exception
handling in the handler, so a store error propagates. -/
def register (salt : Nat) (db : List User) (username password : String) :
    Except DbError (List User × User) :=
  let hashed_password := get_password_hash salt password
  let new_user : User := ⟨username, hashed_password, "user"⟩
  (insert_user db new_user).map (fun db2 => (db2, new_user))

/-- HTTP outcome of the `register` route: `main.py` catches nothing, so a
store error escapes the handler and FastAPI surfaces it as a 500 server
error; the failed transaction leaves the store unchanged. -/
inductive RegisterResult
  | ok (user : User)
  | serverError (e : DbError)
deriving DecidableEq, Repr

/-- The `register` route at the HTTP boundary: response and resulting store. -/
def register_endpoint (salt : Nat) (db : List User) (username password : String) :
    RegisterResult × List User :=
  match register salt db username password with
  | .ok (db2, u) => (.ok u, db2)
  | .error e => (.serverError e, db)

/-- HTTP status of the `register` route's response. -/
def registerStatus : RegisterResult → Nat
  | .ok _ => 200
  | .serverError _ => 500

/-- Field-level serialization of a raw stored record, as FastAPI performs on
a route without a `response_model`: every stored column appears, the
`hashed_password` column included. -/
def userJson (u : User) : List (String × String) :=
  [("username", u.username), ("hashed_password", u.hashed_password.digest), ("role", u.role)]

/-- Serialized body of the `register` route's response: `main.py` returns
the ORM `new_user` directly, with no `response_model` on the route. -/
def registerBody : RegisterResult → Option (List (String × String))
  | .ok u => some (userJson u)
  | .serverError _ => none

/-- Modelled from the spec: `schemas.py` is absent; `UserOut` is the public
account view (never the hash). -/
structure UserOut where
  username : String
  role : String
deriving DecidableEq, Repr

/-- Projection of a stored record to the public view. -/
def toUserOut (u : User) : UserOut :=
  ⟨u.username, u.role⟩

/-- Field-level serialization of the public view: no hash field exists. -/
def userOutJson (v : UserOut) : List (String × String) :=
  [("username", v.username), ("role", v.role)]

/-- HTTP outcome of the `login` route: an `HTTPException` with a status and
detail, or a 200 body with the access token and token type. -/
inductive LoginResult
  | httpError (status : Nat) (detail : String)
  | ok (access_token : Token) (token_type : String)
deriving DecidableEq, Repr

/-- The `login` handler (`main.py` lines 73-82): look up the account by
username; if it is absent or the password fails verification, raise
HTTPException(401, "Invalid credentials"); otherwise issue a token with the
request's username as subject and return it with token type "bearer". -/
def login (secret ttl now : Nat) (db : List User) (username password : String) :
    LoginResult :=
  match get_user_by_username db username with
  | none => .httpError 401 "Invalid credentials"
  | some db_user =>
    if verify_password password db_user.hashed_password then
      .ok (create_access_token secret ttl now ⟨username⟩) "bearer"
    else .httpError 401 "Invalid credentials"

/-- HTTP status of the `login` route's response. -/
def loginStatus : LoginResult → Nat
  | .httpError s _ => s
  | .ok _ _ => 200

/-- Failures of the Access Control Gate. -/
inductive AuthError
  | unauthenticated
  | forbidden
deriving DecidableEq, Repr

/-- HTTP status the gate's failures are surfaced with. -/
def authStatus : AuthError → Nat
  | .unauthenticated => 401
  | .forbidden => 403

/-- Modelled from the spec: `utils.py` is absent; the Authenticate guard
extracts the bearer token, verifies it and looks the account up by the
returned subject, failing with `Unauthenticated` when the token is missing
or invalid (both `TokenExpired` and `TokenInvalid` collapse here) or the
account does not exist. -/
def get_current_user (secret now : Nat) (db : List User) (token : Option Token) :
    Except AuthError User :=
  match token with
  | none => .error .unauthenticated
  | some t =>
    match verify_token secret now t with
    | .error _ => .error .unauthenticated
    | .ok claims =>
      match get_user_by_username db claims.sub with
      | none => .error .unauthenticated
      | some u => .ok u

/-- Modelled from the spec: `utils.py` is absent; `Authorize(requiredRole)`
is a guard factory over an authenticated identity, failing with `Forbidden`
when the resolved account's role differs from the required one. -/
def require_role (required : String) (secret now : Nat) (db : List User)
    (token : Option Token) : Except AuthError User :=
  match get_current_user secret now db token with
  | .error e => .error e
  | .ok u => if u.role == required then .ok u else .error .forbidden

/-- The `read_users_me` handler (`main.py` lines 88-90): returns the current
user through `response_model=schemas.UserOut`, so the body is the public
projection of the record. -/
def read_users_me (secret now : Nat) (db : List User) (token : Option Token) :
    Except AuthError UserOut :=
  (get_current_user secret now db token).map toUserOut

/-- HTTP outcome of the `/admin/users` route. -/
inductive AdminUsersResult
  | authError (e : AuthError)
  | ok (users : List User)
deriving DecidableEq, Repr

/-- The `get_all_users` handler (`main.py` lines 95-102): guarded by
`require_role("admin")`; on success it selects every stored `User` and
returns the raw list, with no `response_model` on the route. -/
def get_all_users (secret now : Nat) (db : List User) (token : Option Token) :
    AdminUsersResult :=
  match require_role "admin" secret now db token with
  | .error e => .authError e
  | .ok _ => .ok db

/-- HTTP status of the `/admin/users` route's response. -/
def adminStatus : AdminUsersResult → Nat
  | .authError e => authStatus e
  | .ok _ => 200

/-- Serialized body of the `/admin/users` response: raw records, so every
column of every account appears. -/
def adminBody : AdminUsersResult → Option (List (List (String × String)))
  | .authError _ => none
  | .ok users => some (users.map userJson)

/-- Concrete fixture: a stored account named alice. -/
def alice : User := ⟨"alice", get_password_hash 0 "pw", "user"⟩

/-- Concrete fixture: a store already containing alice. -/
def dbAlice : List User := [alice]

/-- Concrete fixture: a stored account named eve with password right. -/
def eveUser : User := ⟨"eve", get_password_hash 0 "right", "user"⟩

/-- Concrete fixture: a store containing eve. -/
def dbEve : List User := [eveUser]

/-- Concrete fixture: a stored admin account. -/
def rootUser : User := ⟨"root", get_password_hash 0 "pw", "admin"⟩

/-- Concrete fixture: a stored non-admin account. -/
def bobUser : User := ⟨"bob", get_password_hash 1 "pw2", "user"⟩

/-- Concrete fixture: a store with one admin and one plain user. -/
def dbAdmin : List User := [rootUser, bobUser]

/-- Concrete fixture: a token issued for root at time 0 with TTL 10. -/
def tokRoot : Token := create_access_token 0 10 0 ⟨"root"⟩

/-- Concrete fixture: a token issued for bob at time 0 with TTL 10. -/
def tokBob : Token := create_access_token 0 10 0 ⟨"bob"⟩

/-- Concrete fixture: a token issued at time 0 with TTL 5, checked later. -/
def tokExpired : Token := create_access_token 0 5 0 ⟨"joe"⟩

/-- Concrete fixture: a token signed under a different secret (99). -/
def tokForged : Token := ⟨"joe", 0, 10, sign 99 "joe" 0 10⟩

end App

namespace App

/-- Helper: appending on the left is cancellable for strings. -/
theorem string_append_left_cancel (s a b : String) (h : s ++ a = s ++ b) : a = b := by
  have hd : s.data ++ a.data = s.data ++ b.data := by
    have := congrArg String.data h
    simpa [String.data_append] using this
  exact String.ext (List.append_cancel_left hd)

/-- Helper: a successful `register` stored exactly the freshly hashed account
with role "user", appended to the store, and the username was free. -/
theorem register_ok_shape (salt : Nat) (db : List User) (u p : String)
    (db2 : List User) (a : User) (h : register salt db u p = .ok (db2, a)) :
    a = ⟨u, get_password_hash salt p, "user"⟩ ∧ db2 = db ++ [a] ∧
    db.any (fun x => x.username == u) = false := by
  unfold register insert_user at h
  by_cases hc : db.any (fun x => x.username == u) = true
  · simp [hc, Except.map] at h
  · rw [Bool.not_eq_true] at hc
    simp [hc, Except.map] at h
    obtain ⟨h1, h2⟩ := h
    refine ⟨h2.symm, ?_, hc⟩
    rw [← h1, ← h2]

/-- Helper: a 200 response from the `register` route comes from a successful
`register` call producing the same account and the endpoint's final store. -/
theorem register_endpoint_ok_inv (salt : Nat) (db : List User) (u p : String) (a : User)
    (h : (register_endpoint salt db u p).1 = .ok a) :
    register salt db u p = .ok ((register_endpoint salt db u p).2, a) := by
  unfold register_endpoint at h ⊢
  cases hreg : register salt db u p with
  | ok pr =>
    obtain ⟨db2, b⟩ := pr
    simp [hreg] at h ⊢
    exact h
  | error e => simp [hreg] at h

/-- C1 (counterexample): with alice already stored, registering alice again
does not fail with a 4xx client error: the handler in `main.py` has no
duplicate handling, so the store's uniqueness violation escapes as a 500
server error. -/
theorem register_duplicate_not_4xx_counterexample :
    (register_endpoint 1 dbAlice "alice" "pw2").1 = .serverError .IntegrityError ∧
    registerStatus (register_endpoint 1 dbAlice "alice" "pw2").1 = 500 ∧
    ¬(400 ≤ registerStatus (register_endpoint 1 dbAlice "alice" "pw2").1 ∧
      registerStatus (register_endpoint 1 dbAlice "alice" "pw2").1 < 500) := by
  refine ⟨rfl, rfl, by decide⟩

/-- C1 (amended): registering a username already present in the store fails
with the store's uniqueness error surfaced as a 500 server error (not a 4xx
DuplicateIdentity), and the store is left unchanged, so it retains exactly
as many accounts with that username as before (in particular exactly one). -/
theorem register_duplicate_server_error (salt : Nat) (db : List User) (u p : String)
    (h : db.any (fun x => x.username == u) = true) :
    (register_endpoint salt db u p).1 = .serverError .IntegrityError ∧
    registerStatus (register_endpoint salt db u p).1 = 500 ∧
    (register_endpoint salt db u p).2 = db ∧
    countUsername (register_endpoint salt db u p).2 u = countUsername db u := by
  have hreg : register salt db u p = .error .IntegrityError := by
    unfold register insert_user
    simp [h, Except.map]
  simp [register_endpoint, hreg, registerStatus]

/-- C1 (witness): the amended statement at the concrete duplicate input. -/
theorem register_duplicate_server_error_witness :
    (register_endpoint 1 dbAlice "alice" "pw2").1 = .serverError .IntegrityError ∧
    registerStatus (register_endpoint 1 dbAlice "alice" "pw2").1 = 500 ∧
    (register_endpoint 1 dbAlice "alice" "pw2").2 = dbAlice ∧
    countUsername (register_endpoint 1 dbAlice "alice" "pw2").2 "alice" =
      countUsername dbAlice "alice" :=
  register_duplicate_server_error 1 dbAlice "alice" "pw2" (by decide)

/-- C2 (counterexample): a successful registration of bob returns the raw
stored record, whose serialized body carries the stored hashed_password
field, so the hash is not absent from the response. -/
theorem register_response_hash_counterexample :
    (register_endpoint 7 [] "bob" "hunter2").1 =
      .ok ⟨"bob", get_password_hash 7 "hunter2", "user"⟩ ∧
    registerBody (register_endpoint 7 [] "bob" "hunter2").1 =
      some [("username", "bob"), ("hashed_password", "7$hunter2"), ("role", "user")] ∧
    ("hashed_password", "7$hunter2") ∈
      (registerBody (register_endpoint 7 [] "bob" "hunter2").1).getD [] := by
  refine ⟨rfl, rfl, by decide⟩

/-- C2 (amended): every successful `register` response serializes the raw
stored account, hashed_password field included (the route has no
response_model, unlike `/users/me`), and that field holds exactly the stored
hash of the submitted password. -/
theorem register_response_contains_hash (salt : Nat) (db : List User) (u p : String)
    (a : User) (h : (register_endpoint salt db u p).1 = .ok a) :
    registerBody (register_endpoint salt db u p).1 = some (userJson a) ∧
    ("hashed_password", a.hashed_password.digest) ∈ userJson a ∧
    a.hashed_password = get_password_hash salt p := by
  have hinv := register_endpoint_ok_inv salt db u p a h
  have hs := register_ok_shape salt db u p _ a hinv
  refine ⟨by rw [h]; rfl, by simp [userJson], by simp [hs.1]⟩

/-- C2 (witness): the amended statement at the concrete registration. -/
theorem register_response_contains_hash_witness :
    registerBody (register_endpoint 7 [] "bob" "hunter2").1 =
      some (userJson ⟨"bob", get_password_hash 7 "hunter2", "user"⟩) ∧
    ("hashed_password",
        (⟨"bob", get_password_hash 7 "hunter2", "user"⟩ : User).hashed_password.digest) ∈
      userJson ⟨"bob", get_password_hash 7 "hunter2", "user"⟩ ∧
    (⟨"bob", get_password_hash 7 "hunter2", "user"⟩ : User).hashed_password =
      get_password_hash 7 "hunter2" :=
  register_response_contains_hash 7 [] "bob" "hunter2" _ rfl

/-- C3: an unknown-username login and a known-username wrong-password login
produce the same HTTPException(401, "Invalid credentials") response, so the
two failure cases are indistinguishable at the response level. -/
theorem login_indistinguishable (secret ttl now : Nat) (db : List User)
    (u1 p1 u2 p2 : String) (a : User)
    (h1 : get_user_by_username db u1 = none)
    (h2 : get_user_by_username db u2 = some a)
    (h3 : verify_password p2 a.hashed_password = false) :
    login secret ttl now db u1 p1 = .httpError 401 "Invalid credentials" ∧
    login secret ttl now db u2 p2 = .httpError 401 "Invalid credentials" ∧
    login secret ttl now db u1 p1 = login secret ttl now db u2 p2 := by
  simp [login, h1, h2, h3]

/-- C3 (witness): the statement at a concrete store, with the unknown user
nobody and the known user eve given a wrong password. -/
theorem login_indistinguishable_witness :
    login 0 10 0 dbEve "nobody" "x" = .httpError 401 "Invalid credentials" ∧
    login 0 10 0 dbEve "eve" "wrong" = .httpError 401 "Invalid credentials" ∧
    login 0 10 0 dbEve "nobody" "x" = login 0 10 0 dbEve "eve" "wrong" :=
  login_indistinguishable 0 10 0 dbEve "nobody" "x" "eve" "wrong" eveUser rfl rfl (by decide)

/-- C4: a request to `/admin/users` with a valid token that resolves to an
account is answered 403 Forbidden when the account's role is not "admin",
and 200 with the full list of stored accounts when the role is "admin". -/
theorem admin_users_role_gate (secret now : Nat) (db : List User) (t : Token) (a : User)
    (h : get_current_user secret now db (some t) = .ok a) :
    (a.role ≠ "admin" →
      get_all_users secret now db (some t) = .authError .forbidden ∧
      adminStatus (get_all_users secret now db (some t)) = 403) ∧
    (a.role = "admin" →
      get_all_users secret now db (some t) = .ok db ∧
      adminStatus (get_all_users secret now db (some t)) = 200) := by
  constructor
  · intro hr
    have hb : (a.role == "admin") = false := beq_eq_false_iff_ne.mpr hr
    simp [get_all_users, require_role, h, hb, adminStatus, authStatus]
  · intro hr
    simp [get_all_users, require_role, h, hr, adminStatus]

/-- C4 (witness): with root (admin) and bob (plain user) stored, root's valid
token gets the full listing with status 200 and bob's valid token gets 403. -/
theorem admin_users_role_gate_witness :
    (get_all_users 0 0 dbAdmin (some tokRoot) = .ok dbAdmin ∧
      adminStatus (get_all_users 0 0 dbAdmin (some tokRoot)) = 200) ∧
    (get_all_users 0 0 dbAdmin (some tokBob) = .authError .forbidden ∧
      adminStatus (get_all_users 0 0 dbAdmin (some tokBob)) = 403) :=
  ⟨(admin_users_role_gate 0 0 dbAdmin tokRoot rootUser rfl).2 rfl,
   (admin_users_role_gate 0 0 dbAdmin tokBob bobUser rfl).1 (by decide)⟩

/-- C5: a login whose username is stored and whose password verifies against
the stored hash succeeds with status 200, returning the bearer token issued
with the request's username as its subject. -/
theorem login_success (secret ttl now : Nat) (db : List User) (u p : String) (a : User)
    (h1 : get_user_by_username db u = some a)
    (h2 : verify_password p a.hashed_password = true) :
    login secret ttl now db u p = .ok (create_access_token secret ttl now ⟨u⟩) "bearer" ∧
    (create_access_token secret ttl now ⟨u⟩).subject = u ∧
    loginStatus (login secret ttl now db u p) = 200 := by
  simp [login, h1, h2, loginStatus, create_access_token]

/-- C5 (witness): eve logging in with her correct password. -/
theorem login_success_witness :
    login 0 10 0 dbEve "eve" "right" = .ok (create_access_token 0 10 0 ⟨"eve"⟩) "bearer" ∧
    (create_access_token 0 10 0 ⟨"eve"⟩).subject = "eve" ∧
    loginStatus (login 0 10 0 dbEve "eve" "right") = 200 :=
  login_success 0 10 0 dbEve "eve" "right" eveUser rfl (by decide)

/-- C6: every account created by a successful `register` call has role
"user"; registration never creates an account with any other role. -/
theorem register_role_is_user (salt : Nat) (db : List User) (u p : String)
    (db2 : List User) (a : User) (h : register salt db u p = .ok (db2, a)) :
    a.role = "user" := by
  have hs := register_ok_shape salt db u p db2 a h
  rw [hs.1]

/-- C6 (witness): registering amy into the empty store yields role "user". -/
theorem register_role_is_user_witness :
    (⟨"amy", get_password_hash 0 "pw", "user"⟩ : User).role = "user" :=
  register_role_is_user 0 [] "amy" "pw" [⟨"amy", get_password_hash 0 "pw", "user"⟩]
    ⟨"amy", get_password_hash 0 "pw", "user"⟩ rfl

/-- C7: verifying a token issued over claims c, at any time strictly before
the token's expiry, returns exactly the claims c. -/
theorem verify_issue_roundtrip (secret ttl now checkTime : Nat) (c : Claims)
    (h : checkTime < (create_access_token secret ttl now c).expires_at) :
    verify_token secret checkTime (create_access_token secret ttl now c) = .ok c := by
  obtain ⟨s⟩ := c
  simp only [create_access_token] at h
  simp [verify_token, create_access_token, sign, Nat.not_le.mpr h]

/-- C7 (witness): a token issued at time 3 with TTL 10 round-trips at 12. -/
theorem verify_issue_roundtrip_witness :
    12 < (create_access_token 5 10 3 ⟨"joe"⟩).expires_at ∧
    verify_token 5 12 (create_access_token 5 10 3 ⟨"joe"⟩) = .ok ⟨"joe"⟩ :=
  ⟨by decide, verify_issue_roundtrip 5 10 3 12 ⟨"joe"⟩ (by decide)⟩

/-- C8: verifying any token at or after its expiry yields TokenExpired, and
any token-verification error (TokenExpired or TokenInvalid alike) is
collapsed by the authentication gate to the same Unauthenticated failure,
surfaced as 401 at the HTTP boundary. -/
theorem token_expired_collapse (secret now : Nat) (t : Token) (db : List User) :
    (t.expires_at ≤ now → verify_token secret now t = .error .TokenExpired) ∧
    (∀ e, verify_token secret now t = .error e →
      get_current_user secret now db (some t) = .error .unauthenticated ∧
      authStatus .unauthenticated = 401) := by
  constructor
  · intro h
    unfold verify_token
    rw [if_pos h]
  · intro e he
    exact ⟨by simp [get_current_user, he], rfl⟩

/-- C8 (witness): a token with TTL 5 checked at time 7 is TokenExpired and
surfaces as Unauthenticated; a token signed under another secret is
TokenInvalid and surfaces identically as Unauthenticated (401). -/
theorem token_expired_collapse_witness :
    verify_token 0 7 tokExpired = .error .TokenExpired ∧
    get_current_user 0 7 dbEve (some tokExpired) = .error .unauthenticated ∧
    verify_token 0 0 tokForged = .error .TokenInvalid ∧
    get_current_user 0 0 dbEve (some tokForged) = .error .unauthenticated ∧
    authStatus .unauthenticated = 401 :=
  ⟨(token_expired_collapse 0 7 tokExpired dbEve).1 (by decide),
   ((token_expired_collapse 0 7 tokExpired dbEve).2 .TokenExpired
     ((token_expired_collapse 0 7 tokExpired dbEve).1 (by decide))).1,
   rfl,
   ((token_expired_collapse 0 0 tokForged dbEve).2 .TokenInvalid rfl).1,
   rfl⟩

/-- C9: verifying a password against its own (salted) hash succeeds, and
verifying a different password against that hash fails, for every salt; the
spec's "overwhelming probability" is the idealized collision-freeness of the
modelled digest. -/
theorem hash_verify_correct (salt salt2 : Nat) (p p1 p2 : String) (h : p1 ≠ p2) :
    verify_password p (get_password_hash salt p) = true ∧
    verify_password p1 (get_password_hash salt2 p2) = false := by
  constructor
  · simp [verify_password, get_password_hash]
  · simp only [verify_password, get_password_hash]
    rw [beq_eq_false_iff_ne]
    intro heq
    exact h (string_append_left_cancel (toString salt2 ++ "$") p2 p1 heq).symm

/-- C9 (witness): concrete salts and passwords. -/
theorem hash_verify_correct_witness :
    verify_password "a" (get_password_hash 3 "a") = true ∧
    verify_password "x" (get_password_hash 4 "y") = false :=
  hash_verify_correct 3 4 "a" "x" "y" (by decide)

/-- C10: a successful `/admin/users` response serializes the raw stored
records, so the hashed_password field of every stored account appears in the
body, while `/users/me` on the same request applies the UserOut projection,
whose serialization has no hashed_password key at all. -/
theorem admin_listing_serializes_raw_records (secret now : Nat) (db : List User)
    (t : Token) (a : User)
    (h : get_current_user secret now db (some t) = .ok a) (hr : a.role = "admin") :
    adminBody (get_all_users secret now db (some t)) = some (db.map userJson) ∧
    (∀ u ∈ db, ("hashed_password", u.hashed_password.digest) ∈ userJson u) ∧
    read_users_me secret now db (some t) = .ok (toUserOut a) ∧
    (∀ v : UserOut, ∀ kv ∈ userOutJson v, kv.1 ≠ "hashed_password") := by
  refine ⟨?_, ?_, ?_, ?_⟩
  · simp [get_all_users, require_role, h, hr, adminBody]
  · intro u _
    simp [userJson]
  · simp [read_users_me, h, Except.map]
  · intro v kv hkv
    simp [userOutJson] at hkv
    rcases hkv with h1 | h1 <;> rw [h1] <;> simp

/-- C10 (witness): with root's valid admin token, the listing body is the
raw serialization of the whole store, root's record carries its
hashed_password entry, and the me-endpoint body for the same token is the
projected view, on which the key "username" is not "hashed_password". -/
theorem admin_listing_serializes_raw_records_witness :
    adminBody (get_all_users 0 0 dbAdmin (some tokRoot)) = some (dbAdmin.map userJson) ∧
    ("hashed_password", rootUser.hashed_password.digest) ∈ userJson rootUser ∧
    read_users_me 0 0 dbAdmin (some tokRoot) = .ok (toUserOut rootUser) ∧
    (("username", "root") : String × String).1 ≠ "hashed_password" :=
  ⟨(admin_listing_serializes_raw_records 0 0 dbAdmin tokRoot rootUser rfl rfl).1,
   (admin_listing_serializes_raw_records 0 0 dbAdmin tokRoot rootUser rfl rfl).2.1
     rootUser (by simp [dbAdmin]),
   (admin_listing_serializes_raw_records 0 0 dbAdmin tokRoot rootUser rfl rfl).2.2.1,
   (admin_listing_serializes_raw_records 0 0 dbAdmin tokRoot rootUser rfl rfl).2.2.2
     (toUserOut rootUser) ("username", "root") (by decide)⟩

end App
